import Mathlib

/-!
Shallow embedding of the biometric identity engine of the ai-tutor
repository, covering:

  backend/core/auth/face_auth.py   (MatchEngine: register_face, authenticate,
                                    _calculate_similarity, _check_for_duplicate_face)
  app/auth/face_db.py              (IdentityStore: save_encoding, load_all_encodings)
  app/auth/face_detector.py        (FaceDetector.detect_faces,
                                    FaceDetector.extract_face_embedding)

Python float vectors are modelled as lists of real numbers; the durable
store (one .npy file per identity) is modelled as an ordered list of
(name, descriptor) pairs, the order being the load order of
load_all_encodings.  The external OpenCV primitives (the Haar-cascade
detector and the crop/grayscale/resize/HOG-compute chain) are parameters
of the embedding: a FaceDetector value supplies them, and the repository
code that consumes them is embedded on top.
-/

namespace FaceAuth

/-- A decoded camera frame, opaque to the engine: only the detector and the
descriptor computation ever inspect its pixels. -/
abbrev Frame := ℕ

/-- A detected bounding region (x, y, w, h) in frame pixel coordinates. -/
abbrev Region := ℕ × ℕ × ℕ × ℕ

/-- A face descriptor: the flattened HOG embedding, a vector of floats in
the source, modelled as a list of reals. -/
abbrev Desc := List ℝ

/-- The durable identity store: one record per persisted .npy artifact, in
the order load_all_encodings enumerates them. -/
abbrev Store := List (String × Desc)

/-- The typed failures of the engine, one per distinct raise site of
face_auth.py (the source raises RuntimeError with a distinct message for
each; the spec names them as listed here). -/
inductive AuthError
  | alreadyRegistered (name : String)
  | noFaceDetected
  | multipleFacesDetected
  | featureExtractionFailed
  | alreadyRegisteredAs (existingName : String)
  | noIdentitiesEnrolled
  | noFacesToCompare
  | notRecognized
  deriving DecidableEq

/-- face_auth.py: _DEF_TOLERANCE = 0.85. -/
def _DEF_TOLERANCE : ℝ := 0.85

/-- face_auth.py: _DUPLICATE_THRESHOLD = 0.95. -/
def _DUPLICATE_THRESHOLD : ℝ := 0.95

/-- np.dot on equal-length 1-D vectors. -/
def dot (a b : Desc) : ℝ := (List.zipWith (fun x y => x * y) a b).sum

/-- np.linalg.norm: the Euclidean norm, sqrt of the sum of squares. -/
noncomputable def np_linalg_norm (a : Desc) : ℝ := Real.sqrt (dot a a)

/-- face_auth.py _calculate_similarity: cosine similarity
np.dot(emb1, emb2) / (np.linalg.norm(emb1) * np.linalg.norm(emb2)).
(Real division by zero is 0 in this model; numpy produces nan, which
likewise differs from every ordinary float.) -/
noncomputable def calculate_similarity (emb1 emb2 : Desc) : ℝ :=
  dot emb1 emb2 / (np_linalg_norm emb1 * np_linalg_norm emb2)

/-- np.max over a similarity list; the source only evaluates it on
non-empty lists (guarded by the `if not similarities` check). -/
noncomputable def np_max : List ℝ → ℝ
  | [] => 0
  | [x] => x
  | x :: y :: ys => max x (np_max (y :: ys))

/-- np.argmax: the first index at which the maximum is attained. -/
noncomputable def np_argmax : List ℝ → ℕ
  | [] => 0
  | [_] => 0
  | x :: y :: ys => if np_max (y :: ys) ≤ x then 0 else np_argmax (y :: ys) + 1

/-- face_db.py save_encoding: persist one (name, encoding) artifact.  In
the store model this appends the record; the engine only calls it for a
name not yet present. -/
def save_encoding (name : String) (encoding : Desc) (store : Store) : Store :=
  store ++ [(name, encoding)]

/-- face_db.py load_all_encodings: enumerate every persisted artifact,
appending to names and encodings in lockstep, and return both. -/
def load_all_encodings (store : Store) : List String × List Desc :=
  (store.map Prod.fst, store.map Prod.snd)

/-- The two OpenCV-backed primitives of face_detector.py, supplied as
parameters: detect_faces wraps cv2.CascadeClassifier.detectMultiScale, and
hog_chain is the crop / grayscale / resize(96,96) / HOGDescriptor.compute /
flatten chain of extract_face_embedding, returning none when that
computation cannot produce a vector (e.g. a degenerate crop). -/
structure FaceDetector where
  detect_faces : Frame → List Region
  hog_chain : Frame → Region → Option Desc

/-- face_detector.py FaceDetector.extract_face_embedding: returns None
unless exactly one face region is supplied, otherwise runs the descriptor
computation on faces[0]. -/
def extract_face_embedding (det : FaceDetector) (frame : Frame)
    (faces : List Region) : Option Desc :=
  match faces with
  | [f] => det.hog_chain frame f
  | _ => none

/-- face_auth.py _check_for_duplicate_face: scan the existing encodings in
store order; on the first one whose similarity to the new encoding strictly
exceeds _DUPLICATE_THRESHOLD, return (true, existing_names[i]); if none,
return (false, none).  The names list is traversed in lockstep (the source
indexes existing_names[i] with the loop index over the encodings). -/
noncomputable def check_for_duplicate_face (new_encoding : Desc) :
    List String → List Desc → Bool × Option String
  | _, [] => (false, none)
  | ns, enc :: encs =>
    if _DUPLICATE_THRESHOLD < calculate_similarity new_encoding enc then
      (true, ns.head?)
    else
      check_for_duplicate_face new_encoding ns.tail encs

/-- face_auth.py register_face.  The result pairs the post-call store with
the outcome: every raise site leaves the store untouched, and save_encoding
runs only after all checks pass. -/
noncomputable def register_face (det : FaceDetector) (store : Store)
    (name : String) (frame : Frame) : Store × Except AuthError Unit :=
  let loaded := load_all_encodings store
  let existing_names := loaded.1
  let existing_encodings := loaded.2
  if name ∈ existing_names then
    (store, .error (.alreadyRegistered name))
  else
    let faces := det.detect_faces frame
    if faces.length = 0 then
      (store, .error .noFaceDetected)
    else if 1 < faces.length then
      (store, .error .multipleFacesDetected)
    else
      match extract_face_embedding det frame faces with
      | none => (store, .error .featureExtractionFailed)
      | some new_encoding =>
        match check_for_duplicate_face new_encoding existing_names existing_encodings with
        | (true, existing_name) =>
          (store, .error (.alreadyRegisteredAs (existing_name.getD "None")))
        | (false, _) =>
          (save_encoding name new_encoding store, .ok ())

/-- face_auth.py authenticate: load the store, require a non-empty name
list, require exactly one detected face, extract the probe descriptor,
compute the similarity against every known encoding, and accept the
arg-max name when the maximum similarity reaches the tolerance
(the caller-supplied tolerance; the source defaults it to _DEF_TOLERANCE). -/
noncomputable def authenticate (det : FaceDetector) (store : Store)
    (frame : Frame) (tolerance : ℝ) : Except AuthError String :=
  let loaded := load_all_encodings store
  let names := loaded.1
  let known_encodings := loaded.2
  if names = [] then
    .error .noIdentitiesEnrolled
  else
    let faces := det.detect_faces frame
    if faces.length = 0 then
      .error .noFaceDetected
    else if 1 < faces.length then
      .error .multipleFacesDetected
    else
      match extract_face_embedding det frame faces with
      | none => .error .featureExtractionFailed
      | some unknown_encoding =>
        let similarities :=
          known_encodings.map (fun known => calculate_similarity unknown_encoding known)
        if similarities = [] then
          .error .noFacesToCompare
        else
          let max_similarity := np_max similarities
          let best_match_idx := np_argmax similarities
          if tolerance ≤ max_similarity then
            .ok (names.getD best_match_idx "")
          else
            .error .notRecognized

/-- A localizer/extractor double reporting exactly one face whose
descriptor computation yields d, used to exercise the engine on concrete
inputs. -/
def oneFaceDet (d : Desc) : FaceDetector where
  detect_faces := fun _ => [(0, 0, 96, 96)]
  hog_chain := fun _ _ => some d

/-- A localizer double reporting no face at all. -/
def noFaceDet : FaceDetector where
  detect_faces := fun _ => []
  hog_chain := fun _ _ => none

/-- A localizer/extractor double reporting two faces. -/
def twoFaceDet (d : Desc) : FaceDetector where
  detect_faces := fun _ => [(0, 0, 48, 48), (48, 48, 48, 48)]
  hog_chain := fun _ _ => some d

/-- Modelled from the spec: the cv2.HOGDescriptor computation of
extract_face_embedding is external to this repository; per the spec its
output is a flattened vector whose length is fully determined by the fixed
geometry parameters: the number of block positions in the window times the
number of cells per block times the orientation-bin count. -/
def hogDescriptorSize (winW winH blockW blockH strideW strideH cellW cellH
    nbins : ℕ) : ℕ :=
  ((winW - blockW) / strideW + 1) * ((winH - blockH) / strideH + 1) *
    ((blockW / cellW) * (blockH / cellH)) * nbins

/-- The dimension contract of the external HOG chain at the configuration
extract_face_embedding uses: window 96x96, block 16x16, stride 8x8,
cell 8x8, 9 bins. -/
def HogSizeContract (det : FaceDetector) : Prop :=
  ∀ (frame : Frame) (r : Region) (v : Desc),
    det.hog_chain frame r = some v →
      v.length = hogDescriptorSize 96 96 16 16 8 8 8 8 9

/-! ### Supporting lemmas -/

theorem dot_comm (a b : Desc) : dot a b = dot b a := by
  induction a generalizing b with
  | nil => cases b <;> simp [dot]
  | cons x xs ih =>
    cases b with
    | nil => simp [dot]
    | cons y ys =>
      simp only [dot, List.zipWith_cons_cons, List.sum_cons] at *
      rw [mul_comm, ih ys]

theorem dot_self_nonneg (a : Desc) : 0 ≤ dot a a := by
  induction a with
  | nil => simp [dot]
  | cons x xs ih =>
    simp only [dot, List.zipWith_cons_cons, List.sum_cons] at *
    exact add_nonneg (mul_self_nonneg x) ih

/-- The three facts the authentication arg-max needs: the chosen index is in
range, it attains the maximum, and every earlier index is strictly below the
maximum (np.argmax returns the first maximising index). -/
theorem np_argmax_spec (l : List ℝ) (h : l ≠ []) :
    np_argmax l < l.length ∧ l.getD (np_argmax l) 0 = np_max l ∧
      ∀ j < np_argmax l, l.getD j 0 < np_max l := by
  induction l with
  | nil => exact absurd rfl h
  | cons x xs ih =>
    cases xs with
    | nil => simp [np_argmax, np_max]
    | cons y ys =>
      rcases ih (List.cons_ne_nil y ys) with ⟨ih1, ih2, ih3⟩
      by_cases hc : np_max (y :: ys) ≤ x
      · refine ⟨?_, ?_, ?_⟩
        · simp [np_argmax, hc]
        · simp [np_argmax, np_max, hc, max_eq_left hc]
        · intro j hj
          simp [np_argmax, hc] at hj
      · have hlt : x < np_max (y :: ys) := lt_of_not_le hc
        refine ⟨?_, ?_, ?_⟩
        · simp only [np_argmax, hc, if_false, List.length_cons]
          simp only [List.length_cons] at ih1
          omega
        · simp only [np_argmax, np_max, hc, if_false, List.getD_cons_succ]
          rw [max_eq_right (le_of_lt hlt)]
          exact ih2
        · intro j hj
          simp only [np_argmax, hc, if_false] at hj
          cases j with
          | zero =>
            simp only [List.getD_cons_zero, np_max]
            rw [max_eq_right (le_of_lt hlt)]
            exact hlt
          | succ k =>
            simp only [List.getD_cons_succ, np_max]
            rw [max_eq_right (le_of_lt hlt)]
            exact ih3 k (Nat.lt_of_succ_lt_succ hj)

/-- When no stored encoding is similar enough, the duplicate scan over a
store snapshot reports no duplicate. -/
theorem check_for_duplicate_face_eq_none (d : Desc) (s : Store)
    (h : ∀ p ∈ s, ¬ _DUPLICATE_THRESHOLD < calculate_similarity d p.2) :
    check_for_duplicate_face d (s.map Prod.fst) (s.map Prod.snd) = (false, none) := by
  induction s with
  | nil => simp [check_for_duplicate_face]
  | cons p t ih =>
    have hp := h p (List.mem_cons_self p t)
    simp only [List.map_cons, check_for_duplicate_face, hp, if_false, List.tail_cons]
    exact ih fun q hq => h q (List.mem_cons_of_mem p hq)

/-- When some stored encoding is similar enough, the duplicate scan over a
store snapshot reports a duplicate, naming a stored identity. -/
theorem check_for_duplicate_face_eq_some (d : Desc) (s : Store)
    (h : ∃ p ∈ s, _DUPLICATE_THRESHOLD < calculate_similarity d p.2) :
    ∃ n, n ∈ s.map Prod.fst ∧
      check_for_duplicate_face d (s.map Prod.fst) (s.map Prod.snd) = (true, some n) := by
  induction s with
  | nil => simp at h
  | cons p t ih =>
    by_cases hp : _DUPLICATE_THRESHOLD < calculate_similarity d p.2
    · refine ⟨p.1, by simp, ?_⟩
      simp [check_for_duplicate_face, hp]
    · have h' : ∃ q ∈ t, _DUPLICATE_THRESHOLD < calculate_similarity d q.2 := by
        rcases h with ⟨q, hq, hsim⟩
        rcases List.mem_cons.mp hq with rfl | hq'
        · exact absurd hsim hp
        · exact ⟨q, hq', hsim⟩
      rcases ih h' with ⟨n, hn, heq⟩
      refine ⟨n, List.mem_cons_of_mem _ hn, ?_⟩
      simp only [List.map_cons, check_for_duplicate_face, hp, if_false, List.tail_cons]
      exact heq

/-- Reduction of register_face on the happy detection path with no
duplicate: every check passes and save_encoding runs. -/
theorem register_face_no_dup (det : FaceDetector) (s : Store) (name : String)
    (frame : Frame) (d : Desc)
    (hname : name ∉ s.map Prod.fst)
    (hfaces : (det.detect_faces frame).length = 1)
    (hext : extract_face_embedding det frame (det.detect_faces frame) = some d)
    (hno : ∀ p ∈ s, ¬ _DUPLICATE_THRESHOLD < calculate_similarity d p.2) :
    register_face det s name frame = (save_encoding name d s, Except.ok ()) := by
  have hchk := check_for_duplicate_face_eq_none d s hno
  simp only [register_face, load_all_encodings, if_neg hname, hfaces, hext, hchk]
  norm_num

/-- Reduction of register_face on the happy detection path with a
duplicate present: the call fails naming a stored identity. -/
theorem register_face_dup (det : FaceDetector) (s : Store) (name : String)
    (frame : Frame) (d : Desc)
    (hname : name ∉ s.map Prod.fst)
    (hfaces : (det.detect_faces frame).length = 1)
    (hext : extract_face_embedding det frame (det.detect_faces frame) = some d)
    (hdup : ∃ p ∈ s, _DUPLICATE_THRESHOLD < calculate_similarity d p.2) :
    ∃ n, n ∈ s.map Prod.fst ∧
      register_face det s name frame = (s, Except.error (AuthError.alreadyRegisteredAs n)) := by
  rcases check_for_duplicate_face_eq_some d s hdup with ⟨n, hn, hchk⟩
  refine ⟨n, hn, ?_⟩
  simp only [register_face, load_all_encodings, if_neg hname, hfaces, hext, hchk]
  norm_num

/-- register_face either leaves the store exactly as loaded or succeeds:
there is no third outcome. -/
theorem register_face_store_cases (det : FaceDetector) (s : Store)
    (name : String) (frame : Frame) :
    register_face det s name frame = (s, (register_face det s name frame).2)
      ∨ (register_face det s name frame).2 = Except.ok () := by
  unfold register_face
  simp only [load_all_encodings]
  split
  · left; rfl
  · split
    · left; rfl
    · split
      · left; rfl
      · split
        · left; rfl
        · split
          · left; rfl
          · right; rfl

/-- Reduction of authenticate on the happy detection path: the call comes
down to the threshold test on the maximum similarity. -/
theorem authenticate_one_face (det : FaceDetector) (s : Store) (frame : Frame)
    (tol : ℝ) (d : Desc)
    (hs : s ≠ [])
    (hfaces : (det.detect_faces frame).length = 1)
    (hext : extract_face_embedding det frame (det.detect_faces frame) = some d) :
    authenticate det s frame tol =
      if tol ≤ np_max ((s.map Prod.snd).map fun known => calculate_similarity d known) then
        Except.ok ((s.map Prod.fst).getD
          (np_argmax ((s.map Prod.snd).map fun known => calculate_similarity d known)) "")
      else Except.error AuthError.notRecognized := by
  have hnames : s.map Prod.fst ≠ [] := by
    simpa using hs
  have hsims : ((s.map Prod.snd).map fun known => calculate_similarity d known) ≠ [] := by
    simpa using hs
  simp only [authenticate, load_all_encodings, if_neg hnames, hfaces, hext, if_neg hsims]
  norm_num

/-! ### Claim theorems -/

/-- C3: for every name already present in the store and every frame
whatsoever, register_face fails with alreadyRegistered(name), decided by
exact string membership in the loaded names; the universal quantification
over the detector and the frame shows the failure is decided before any
face detection or descriptor extraction and does not depend on the frame
content. -/
theorem c3_enroll_existing_name_rejected (det : FaceDetector) (s : Store)
    (name : String) (frame : Frame)
    (hmem : name ∈ s.map Prod.fst) :
    register_face det s name frame = (s, Except.error (AuthError.alreadyRegistered name)) := by
  simp only [register_face, load_all_encodings, if_pos hmem]

/-- Witness for C3: re-registering alice fails with alreadyRegistered for
a detector that would have reported a perfectly valid face. -/
theorem c3_enroll_existing_name_rejected_witness :
    register_face (oneFaceDet [(4 : ℝ), 3]) [("alice", [(3 : ℝ), 4])] "alice" 0 =
      ([("alice", [(3 : ℝ), 4])], Except.error (AuthError.alreadyRegistered "alice")) :=
  c3_enroll_existing_name_rejected (oneFaceDet [(4 : ℝ), 3]) [("alice", [(3 : ℝ), 4])]
    "alice" 0 (by simp)

/-- C4: authenticate on an empty store fails with noIdentitiesEnrolled for
every frame, every tolerance and every detector; the universal
quantification over the detector shows the failure is decided before any
face detection or descriptor extraction. -/
theorem c4_authenticate_empty_store (det : FaceDetector) (frame : Frame) (tol : ℝ) :
    authenticate det ([] : Store) frame tol = Except.error AuthError.noIdentitiesEnrolled := by
  simp [authenticate, load_all_encodings]

/-- C5: a register_face call that fails for any reason leaves the store
exactly as it was: save_encoding only runs after every check has passed. -/
theorem c5_failed_enroll_no_mutation (det : FaceDetector) (s : Store)
    (name : String) (frame : Frame) (e : AuthError)
    (h : (register_face det s name frame).2 = Except.error e) :
    (register_face det s name frame).1 = s := by
  rcases register_face_store_cases det s name frame with hc | hc
  · rw [hc]
  · rw [hc] at h
    exact Except.noConfusion h

/-- Witness for C5: an enrollment attempt that fails because no face was
detected leaves the concrete one-identity store untouched. -/
theorem c5_failed_enroll_no_mutation_witness :
    (register_face noFaceDet [("alice", [(3 : ℝ), 4])] "bob" 0).2 =
        Except.error AuthError.noFaceDetected
      ∧ (register_face noFaceDet [("alice", [(3 : ℝ), 4])] "bob" 0).1 =
        [("alice", [(3 : ℝ), 4])] := by
  have h2 : (register_face noFaceDet [("alice", [(3 : ℝ), 4])] "bob" 0).2 =
      Except.error AuthError.noFaceDetected := by
    simp [register_face, load_all_encodings, noFaceDet]
  exact ⟨h2, c5_failed_enroll_no_mutation noFaceDet [("alice", [(3 : ℝ), 4])] "bob" 0
    AuthError.noFaceDetected h2⟩

/-- C1: on an enrollment call that reaches the descriptor stage (fresh
name, exactly one detected face, descriptor extracted), the call fails
with alreadyRegisteredAs(existingName) if and only if some stored
descriptor has cosine similarity strictly exceeding the duplicate
threshold 0.95 to the new one; otherwise the (name, descriptor) record is
persisted and the call succeeds; and the duplicate threshold 0.95 is
strictly greater than the authentication tolerance 0.85. -/
theorem c1_enroll_duplicate_policy (det : FaceDetector) (s : Store)
    (name : String) (frame : Frame) (d : Desc)
    (hname : name ∉ s.map Prod.fst)
    (hfaces : (det.detect_faces frame).length = 1)
    (hext : extract_face_embedding det frame (det.detect_faces frame) = some d) :
    ((∃ n, register_face det s name frame =
          (s, Except.error (AuthError.alreadyRegisteredAs n))) ↔
        ∃ p ∈ s, _DUPLICATE_THRESHOLD < calculate_similarity d p.2)
      ∧ ((∀ p ∈ s, ¬ _DUPLICATE_THRESHOLD < calculate_similarity d p.2) →
        register_face det s name frame = (save_encoding name d s, Except.ok ()))
      ∧ _DEF_TOLERANCE < _DUPLICATE_THRESHOLD := by
  refine ⟨⟨?_, ?_⟩, ?_, ?_⟩
  · rintro ⟨n, hn⟩
    by_contra hno
    push_neg at hno
    have hred := register_face_no_dup det s name frame d hname hfaces hext
      fun p hp => not_lt.mpr (hno p hp)
    rw [hred] at hn
    simp at hn
  · intro hdup
    rcases register_face_dup det s name frame d hname hfaces hext hdup with ⟨n, _, heq⟩
    exact ⟨n, heq⟩
  · exact register_face_no_dup det s name frame d hname hfaces hext
  · norm_num [_DEF_TOLERANCE, _DUPLICATE_THRESHOLD]

/-- Witness for C1: enrolling bob with a fresh descriptor over the
one-identity store alice satisfies the duplicate policy. -/
theorem c1_enroll_duplicate_policy_witness :
    ((∃ n, register_face (oneFaceDet [(4 : ℝ), 3]) [("alice", [(3 : ℝ), 4])] "bob" 0 =
          ([("alice", [(3 : ℝ), 4])], Except.error (AuthError.alreadyRegisteredAs n))) ↔
        ∃ p ∈ [("alice", [(3 : ℝ), 4])],
          _DUPLICATE_THRESHOLD < calculate_similarity [(4 : ℝ), 3] p.2)
      ∧ ((∀ p ∈ [("alice", [(3 : ℝ), 4])],
          ¬ _DUPLICATE_THRESHOLD < calculate_similarity [(4 : ℝ), 3] p.2) →
        register_face (oneFaceDet [(4 : ℝ), 3]) [("alice", [(3 : ℝ), 4])] "bob" 0 =
          (save_encoding "bob" [(4 : ℝ), 3] [("alice", [(3 : ℝ), 4])], Except.ok ()))
      ∧ _DEF_TOLERANCE < _DUPLICATE_THRESHOLD :=
  c1_enroll_duplicate_policy (oneFaceDet [(4 : ℝ), 3]) [("alice", [(3 : ℝ), 4])]
    "bob" 0 [(4 : ℝ), 3] (by simp) rfl rfl

/-- C2: on an authentication call that reaches the comparison stage
(non-empty store, exactly one detected face, descriptor extracted), the
engine compares the probe against every stored descriptor in load order,
returns the name at the first index attaining the maximum similarity if
and only if that maximum reaches the tolerance, and fails with
notRecognized otherwise. -/
theorem c2_authenticate_argmax_policy (det : FaceDetector) (s : Store)
    (frame : Frame) (tol : ℝ) (d : Desc) (sims : List ℝ)
    (hs : s ≠ [])
    (hfaces : (det.detect_faces frame).length = 1)
    (hext : extract_face_embedding det frame (det.detect_faces frame) = some d)
    (hsims : sims = (s.map Prod.snd).map fun known => calculate_similarity d known) :
    (authenticate det s frame tol =
        Except.ok ((s.map Prod.fst).getD (np_argmax sims) "") ↔ tol ≤ np_max sims)
      ∧ (¬ tol ≤ np_max sims →
        authenticate det s frame tol = Except.error AuthError.notRecognized)
      ∧ np_argmax sims < s.length
      ∧ sims.getD (np_argmax sims) 0 = np_max sims
      ∧ ∀ j < np_argmax sims, sims.getD j 0 < np_max sims := by
  subst hsims
  have hred := authenticate_one_face det s frame tol d hs hfaces hext
  have hsne : ((s.map Prod.snd).map fun known => calculate_similarity d known) ≠ [] := by
    simpa using hs
  rcases np_argmax_spec _ hsne with ⟨h1, h2, h3⟩
  have hlen : ((s.map Prod.snd).map fun known => calculate_similarity d known).length
      = s.length := by simp
  refine ⟨⟨?_, ?_⟩, ?_, ?_, h2, h3⟩
  · intro hok
    by_contra hnot
    rw [hred, if_neg hnot] at hok
    exact Except.noConfusion hok
  · intro hle
    rw [hred, if_pos hle]
  · intro hnot
    rw [hred, if_neg hnot]
  · rw [hlen] at h1
    exact h1

/-- Witness for C2: authenticating against the one-identity store alice
with a concrete probe satisfies the arg-max policy. -/
theorem c2_authenticate_argmax_policy_witness :
    (authenticate (oneFaceDet [(4 : ℝ), 3]) [("alice", [(3 : ℝ), 4])] 0 _DEF_TOLERANCE =
        Except.ok (([("alice", [(3 : ℝ), 4])].map Prod.fst).getD
          (np_argmax (([("alice", [(3 : ℝ), 4])].map Prod.snd).map
            fun known => calculate_similarity [(4 : ℝ), 3] known)) "") ↔
        _DEF_TOLERANCE ≤ np_max (([("alice", [(3 : ℝ), 4])].map Prod.snd).map
          fun known => calculate_similarity [(4 : ℝ), 3] known))
      ∧ (¬ _DEF_TOLERANCE ≤ np_max (([("alice", [(3 : ℝ), 4])].map Prod.snd).map
          fun known => calculate_similarity [(4 : ℝ), 3] known) →
        authenticate (oneFaceDet [(4 : ℝ), 3]) [("alice", [(3 : ℝ), 4])] 0 _DEF_TOLERANCE =
          Except.error AuthError.notRecognized)
      ∧ np_argmax (([("alice", [(3 : ℝ), 4])].map Prod.snd).map
          fun known => calculate_similarity [(4 : ℝ), 3] known) <
        [("alice", [(3 : ℝ), 4])].length
      ∧ (([("alice", [(3 : ℝ), 4])].map Prod.snd).map
          fun known => calculate_similarity [(4 : ℝ), 3] known).getD
          (np_argmax (([("alice", [(3 : ℝ), 4])].map Prod.snd).map
            fun known => calculate_similarity [(4 : ℝ), 3] known)) 0 =
        np_max (([("alice", [(3 : ℝ), 4])].map Prod.snd).map
          fun known => calculate_similarity [(4 : ℝ), 3] known)
      ∧ ∀ j < np_argmax (([("alice", [(3 : ℝ), 4])].map Prod.snd).map
          fun known => calculate_similarity [(4 : ℝ), 3] known),
          (([("alice", [(3 : ℝ), 4])].map Prod.snd).map
            fun known => calculate_similarity [(4 : ℝ), 3] known).getD j 0 <
          np_max (([("alice", [(3 : ℝ), 4])].map Prod.snd).map
            fun known => calculate_similarity [(4 : ℝ), 3] known) :=
  c2_authenticate_argmax_policy (oneFaceDet [(4 : ℝ), 3]) [("alice", [(3 : ℝ), 4])]
    0 _DEF_TOLERANCE [(4 : ℝ), 3] _ (by simp) rfl rfl rfl

/-- C6: a frame on which the localizer reports zero regions makes both
register_face and authenticate fail with noFaceDetected, and a frame with
two or more regions makes both fail with multipleFacesDetected (given that
the earlier checks pass: the name is fresh on the enroll path and the
store is non-empty on the authenticate path). -/
theorem c6_region_count_errors (det : FaceDetector) (s : Store)
    (name : String) (frame : Frame) (tol : ℝ)
    (hname : name ∉ s.map Prod.fst) (hs : s ≠ []) :
    (det.detect_faces frame = [] →
      register_face det s name frame = (s, Except.error AuthError.noFaceDetected)
        ∧ authenticate det s frame tol = Except.error AuthError.noFaceDetected)
      ∧ (2 ≤ (det.detect_faces frame).length →
        register_face det s name frame = (s, Except.error AuthError.multipleFacesDetected)
          ∧ authenticate det s frame tol = Except.error AuthError.multipleFacesDetected) := by
  have hnames : s.map Prod.fst ≠ [] := by simpa using hs
  constructor
  · intro h0
    constructor
    · simp [register_face, load_all_encodings, if_neg hname, h0]
    · simp [authenticate, load_all_encodings, if_neg hnames, h0, hs]
  · intro h2
    have h0 : ¬ (det.detect_faces frame).length = 0 := by omega
    have h1 : 1 < (det.detect_faces frame).length := by omega
    constructor
    · simp only [register_face, load_all_encodings, if_neg hname, if_neg h0, if_pos h1]
    · simp only [authenticate, load_all_encodings, if_neg hnames, if_neg h0, if_pos h1]

/-- Witness for C6: with the one-identity store alice and a fresh name,
the zero-face detector produces noFaceDetected on both paths and the
two-face detector produces multipleFacesDetected on both paths. -/
theorem c6_region_count_errors_witness :
    (register_face noFaceDet [("alice", [(3 : ℝ), 4])] "bob" 0 =
        ([("alice", [(3 : ℝ), 4])], Except.error AuthError.noFaceDetected)
      ∧ authenticate noFaceDet [("alice", [(3 : ℝ), 4])] 0 _DEF_TOLERANCE =
        Except.error AuthError.noFaceDetected)
      ∧ (register_face (twoFaceDet [(4 : ℝ), 3]) [("alice", [(3 : ℝ), 4])] "bob" 0 =
        ([("alice", [(3 : ℝ), 4])], Except.error AuthError.multipleFacesDetected)
      ∧ authenticate (twoFaceDet [(4 : ℝ), 3]) [("alice", [(3 : ℝ), 4])] 0 _DEF_TOLERANCE =
        Except.error AuthError.multipleFacesDetected) := by
  constructor
  · exact (c6_region_count_errors noFaceDet [("alice", [(3 : ℝ), 4])] "bob" 0
      _DEF_TOLERANCE (by simp) (by simp)).1 rfl
  · exact (c6_region_count_errors (twoFaceDet [(4 : ℝ), 3]) [("alice", [(3 : ℝ), 4])]
      "bob" 0 _DEF_TOLERANCE (by simp) (by simp)).2 (by simp [twoFaceDet])

/-- C10: load_all_encodings returns names and encodings of equal length
for every store state (it appends to both in lockstep), and consequently
the internal no-faces-to-compare failure branch of authenticate is
unreachable whenever the loaded name list is non-empty. -/
theorem c10_lockstep_load_dead_branch (det : FaceDetector) (s : Store)
    (frame : Frame) (tol : ℝ)
    (hs : (load_all_encodings s).1 ≠ []) :
    (∀ t : Store, (load_all_encodings t).1.length = (load_all_encodings t).2.length)
      ∧ authenticate det s frame tol ≠ Except.error AuthError.noFacesToCompare := by
  constructor
  · intro t
    simp [load_all_encodings]
  · have hsne : s ≠ [] := by
      intro h
      subst h
      simp [load_all_encodings] at hs
    unfold authenticate
    simp only [load_all_encodings] at hs ⊢
    rw [if_neg hs]
    split
    · simp
    · split
      · simp
      · split
        · simp
        · have hsims : ∀ u : Desc,
              ((s.map Prod.snd).map fun known => calculate_similarity u known) ≠ [] := by
            intro u
            simpa using hsne
          next u _ =>
            rw [if_neg (hsims u)]
            split
            · simp
            · simp

/-- Witness for C10: on the one-identity store alice, a no-face frame makes
authenticate fail with noFaceDetected, not with the dead branch. -/
theorem c10_lockstep_load_dead_branch_witness :
    (∀ t : Store, (load_all_encodings t).1.length = (load_all_encodings t).2.length)
      ∧ authenticate noFaceDet [("alice", [(3 : ℝ), 4])] 0 _DEF_TOLERANCE ≠
        Except.error AuthError.noFacesToCompare :=
  c10_lockstep_load_dead_branch noFaceDet [("alice", [(3 : ℝ), 4])] 0 _DEF_TOLERANCE
    (by simp [load_all_encodings])

theorem dot_replicate_zero (n : ℕ) :
    dot (List.replicate n (0 : ℝ)) (List.replicate n (0 : ℝ)) = 0 := by
  induction n with
  | zero => simp [dot]
  | succ k ih =>
    simp only [dot, List.replicate_succ, List.zipWith_cons_cons, List.sum_cons] at *
    rw [ih]
    ring

/-- C7 counterexample: the all-zeros descriptor of the HOG dimension is
not self-similar at 1: its similarity to itself involves dividing the zero
dot product by the zero norm product (numpy produces nan there; in the
real-number model the quotient is 0), so sim(a, a) = 1 fails for it. -/
theorem c7_self_similarity_zero_counterexample :
    calculate_similarity (List.replicate 4356 (0 : ℝ)) (List.replicate 4356 (0 : ℝ)) ≠ 1 := by
  unfold calculate_similarity np_linalg_norm
  rw [dot_replicate_zero, Real.sqrt_zero]
  norm_num

/-- C7 (amended): cosine similarity is symmetric for all descriptor pairs,
and every descriptor with non-zero self dot product (equivalently,
non-zero Euclidean norm) has self-similarity exactly 1; the all-zeros
descriptor is the sole exception forced by the counterexample. -/
theorem c7_similarity_symmetric_self :
    (∀ a b : Desc, calculate_similarity a b = calculate_similarity b a)
      ∧ ∀ a : Desc, dot a a ≠ 0 → calculate_similarity a a = 1 := by
  constructor
  · intro a b
    unfold calculate_similarity
    rw [dot_comm, mul_comm]
  · intro a ha
    unfold calculate_similarity np_linalg_norm
    rw [Real.mul_self_sqrt (dot_self_nonneg a)]
    exact div_self ha

/-- Witness for C7: the concrete descriptor (3, 4) has non-zero self dot
product and self-similarity exactly 1. -/
theorem c7_similarity_symmetric_self_witness :
    dot [(3 : ℝ), 4] [(3 : ℝ), 4] ≠ 0
      ∧ calculate_similarity [(3 : ℝ), 4] [(3 : ℝ), 4] = 1 := by
  have hne : dot [(3 : ℝ), 4] [(3 : ℝ), 4] ≠ 0 := by
    norm_num [dot]
  exact ⟨hne, c7_similarity_symmetric_self.2 [(3 : ℝ), 4] hne⟩

/-- C8: the descriptor dimension is the constant 4356 fixed by the
extraction geometry (96x96 window, 16x16 blocks, 8x8 stride, 8x8 cells,
9 bins), and every descriptor extract_face_embedding produces under the
HOG dimension contract has exactly that many components, so every
similarity comparison of extracted descriptors runs at that dimension. -/
theorem c8_descriptor_dimension (det : FaceDetector) (frame : Frame)
    (faces : List Region) (d : Desc)
    (hcontract : HogSizeContract det)
    (hext : extract_face_embedding det frame faces = some d) :
    hogDescriptorSize 96 96 16 16 8 8 8 8 9 = 4356 ∧ d.length = 4356 := by
  refine ⟨rfl, ?_⟩
  cases faces with
  | nil => exact Option.noConfusion hext
  | cons f rest =>
    cases rest with
    | nil =>
      have hchain : det.hog_chain frame f = some d := hext
      have := hcontract frame f d hchain
      rw [this]
      rfl
    | cons g t => exact Option.noConfusion hext

/-- Witness for C8: a detector whose HOG chain produces the all-zeros
vector of length 4356 satisfies the dimension contract, and extraction on
one region yields a descriptor of exactly 4356 components. -/
theorem c8_descriptor_dimension_witness :
    hogDescriptorSize 96 96 16 16 8 8 8 8 9 = 4356
      ∧ (List.replicate 4356 (0 : ℝ)).length = 4356 :=
  c8_descriptor_dimension (oneFaceDet (List.replicate 4356 (0 : ℝ))) 0
    [(0, 0, 96, 96)] (List.replicate 4356 (0 : ℝ))
    (by
      intro frame r v hv
      cases hv
      rw [List.length_replicate]
      rfl)
    rfl

/-- C9 counterexample: with two regions supplied, extract_face_embedding
returns none even though the underlying descriptor computation produces a
vector on each of those regions: a none result here signals a wrong number
of input regions, not a failed computation, refuting the claim. -/
theorem c9_none_on_two_regions_counterexample :
    extract_face_embedding (twoFaceDet [(1 : ℝ)]) 0
        ((twoFaceDet [(1 : ℝ)]).detect_faces 0) = none
      ∧ (twoFaceDet [(1 : ℝ)]).hog_chain 0 (0, 0, 48, 48) = some [(1 : ℝ)]
      ∧ (twoFaceDet [(1 : ℝ)]).hog_chain 0 (48, 48, 48, 48) = some [(1 : ℝ)] :=
  ⟨rfl, rfl, rfl⟩

/-- C9 (amended): extract_face_embedding returns none whenever the number
of supplied regions differs from one, regardless of the underlying
computation; and on exactly one region it returns exactly what the
underlying descriptor computation returns, so there a none result does
mean the computation could not produce a vector. -/
theorem c9_extract_none_semantics (det : FaceDetector) (frame : Frame)
    (faces : List Region) (r : Region)
    (hne : faces.length ≠ 1) :
    extract_face_embedding det frame faces = none
      ∧ extract_face_embedding det frame [r] = det.hog_chain frame r := by
  refine ⟨?_, rfl⟩
  cases faces with
  | nil => rfl
  | cons f rest =>
    cases rest with
    | nil => exact absurd rfl hne
    | cons g t => rfl

/-- Witness for C9: with zero regions the extraction returns none, and on
a single region it coincides with the underlying computation. -/
theorem c9_extract_none_semantics_witness :
    extract_face_embedding (twoFaceDet [(1 : ℝ)]) 0 [] = none
      ∧ extract_face_embedding (twoFaceDet [(1 : ℝ)]) 0 [(0, 0, 48, 48)] =
        (twoFaceDet [(1 : ℝ)]).hog_chain 0 (0, 0, 48, 48) :=
  c9_extract_none_semantics (twoFaceDet [(1 : ℝ)]) 0 [] (0, 0, 48, 48) (by simp)

end FaceAuth
